import Mathlib

/-!
# hardware_interface handles

A shallow embedding of `hardware_interface/handle.hpp`:
`ReadOnlyHandle`, `ReadWriteHandle`, `StateInterface` and `CommandInterface`,
over an explicit model of the driver-owned storage the handles point into.

Conventions of the embedding
* `std::string` is `String`, `double` is `Float`, `int` is `Int`, `uint32_t` is `Nat`,
  `std::vector<unsigned char>` is `List Nat`, `std::vector<double>` is `List Float`.
  The handle code only copies these values, it never computes with them.
* A raw pointer is a `Ptr`.  Besides `nullptr` and the address of a live object of the
  driver, a pointer member can hold the address of an automatic variable whose lifetime
  has ended, or can have been left without any initialiser.
* A member function that can throw, or whose behaviour the language leaves undefined,
  returns `Except Fault _`.
-/

namespace hardware_interface

/-- The value of a raw pointer member. -/
inductive Ptr where
  /-- The null pointer `nullptr`. -/
  | null
  /-- The address of live object number `a` in the storage of the driver. -/
  | addr (a : Nat)
  /-- The address of an automatic variable whose lifetime has ended: not null, and
  not the address of any object. -/
  | dangling
  /-- An indeterminate value: the member was never initialised. -/
  | indeterminate
  deriving DecidableEq, Repr

/-- The two ways a member function of a handle can fail to return. -/
inductive Fault where
  /-- The exception thrown by `THROW_ON_NULLPTR`: the unbound-access error. -/
  | nullptr_exception
  /-- The call has undefined behaviour: it reads an indeterminate pointer, or goes
  through a pointer that points to no live object. -/
  | undefined_behavior
  deriving DecidableEq, Repr

/-- The storage owned by the hardware driver, one family of objects per pointee type.
Object number `a` of a family is what `Ptr.addr a` of that pointer type points to. -/
structure Storage where
  /-- The `double` objects. -/
  doubles : Nat → Float
  /-- The `int` objects. -/
  ints : Nat → Int
  /-- The `uint32_t` objects. -/
  uint32s : Nat → Nat
  /-- The `std::vector<unsigned char>` objects. -/
  strs : Nat → List Nat
  /-- The `std::vector<double>` objects. -/
  arrays : Nat → List Float

/-- Assignment `*p = v` to the `double` object number `a`. -/
def Storage.write_double (s : Storage) (a : Nat) (v : Float) : Storage :=
  { s with doubles := fun b => if b = a then v else s.doubles b }

/-- Assignment `*p = v` to the `std::vector<double>` object number `a`. -/
def Storage.write_array (s : Storage) (a : Nat) (v : List Float) : Storage :=
  { s with arrays := fun b => if b = a then v else s.arrays b }

/-- Modelled from the spec: the macro `THROW_ON_NULLPTR` of `hardware_interface/macros.hpp`,
which is not among the sources.  It tests its argument against `nullptr` and throws
("fails with a null-dereference error when the handle is unbound") when the
pointer is null; otherwise execution continues.  Testing a pointer that was never
initialised is undefined. -/
def THROW_ON_NULLPTR (p : Ptr) : Except Fault Unit :=
  match p with
  | Ptr.null => Except.error Fault.nullptr_exception
  | Ptr.indeterminate => Except.error Fault.undefined_behavior
  | Ptr.addr _ => Except.ok ()
  | Ptr.dangling => Except.ok ()

/-- The comparison `p != nullptr`.  The address of a dead automatic variable compares
unequal to `nullptr`; comparing a pointer that was never initialised is undefined. -/
def Ptr.ne_nullptr (p : Ptr) : Except Fault Bool :=
  match p with
  | Ptr.null => Except.ok false
  | Ptr.addr _ => Except.ok true
  | Ptr.dangling => Except.ok true
  | Ptr.indeterminate => Except.error Fault.undefined_behavior

/-- The indirection `*p` read from the family `mem`: defined only for the address of a
live object. -/
def Ptr.deref {α : Type} (p : Ptr) (mem : Nat → α) : Except Fault α :=
  match p with
  | Ptr.addr a => Except.ok (mem a)
  | _ => Except.error Fault.undefined_behavior

/-- The data members of `class ReadOnlyHandle`. -/
structure ReadOnlyHandle where
  name_ : String
  interface_name_ : String
  value_ptr_ : Ptr
  int_value_ptr_ : Ptr
  uint32_value_ptr_ : Ptr
  str_value_ptr_ : Ptr
  array_value_ptr_ : Ptr
  deriving DecidableEq, Repr

namespace ReadOnlyHandle

/-- `ReadOnlyHandle(name, interface_name, double * value_ptr = nullptr)`: the three
members of the initialiser list are set, the four other pointers get no initialiser.
A call that leaves out the third argument is `ctor_double name interface_name Ptr.null`. -/
def ctor_double (name interface_name : String) (value_ptr : Ptr) : ReadOnlyHandle :=
  { name_ := name, interface_name_ := interface_name, value_ptr_ := value_ptr,
    int_value_ptr_ := Ptr.indeterminate, uint32_value_ptr_ := Ptr.indeterminate,
    str_value_ptr_ := Ptr.indeterminate, array_value_ptr_ := Ptr.indeterminate }

/-- `ReadOnlyHandle(name, interface_name, int * value_ptr)`: the body stores the
address of its local `nullPTR` in `value_ptr_`; the local dies when the constructor
returns. -/
def ctor_int (name interface_name : String) (value_ptr : Ptr) : ReadOnlyHandle :=
  { name_ := name, interface_name_ := interface_name, value_ptr_ := Ptr.dangling,
    int_value_ptr_ := value_ptr, uint32_value_ptr_ := Ptr.indeterminate,
    str_value_ptr_ := Ptr.indeterminate, array_value_ptr_ := Ptr.indeterminate }

/-- `ReadOnlyHandle(name, interface_name, uint32_t * value_ptr)`. -/
def ctor_uint32 (name interface_name : String) (value_ptr : Ptr) : ReadOnlyHandle :=
  { name_ := name, interface_name_ := interface_name, value_ptr_ := Ptr.dangling,
    int_value_ptr_ := Ptr.indeterminate, uint32_value_ptr_ := value_ptr,
    str_value_ptr_ := Ptr.indeterminate, array_value_ptr_ := Ptr.indeterminate }

/-- `ReadOnlyHandle(name, interface_name, std::vector<unsigned char> * value_ptr)`. -/
def ctor_str (name interface_name : String) (value_ptr : Ptr) : ReadOnlyHandle :=
  { name_ := name, interface_name_ := interface_name, value_ptr_ := Ptr.dangling,
    int_value_ptr_ := Ptr.indeterminate, uint32_value_ptr_ := Ptr.indeterminate,
    str_value_ptr_ := value_ptr, array_value_ptr_ := Ptr.indeterminate }

/-- `ReadOnlyHandle(name, interface_name, std::vector<double> * value_ptr)`. -/
def ctor_array (name interface_name : String) (value_ptr : Ptr) : ReadOnlyHandle :=
  { name_ := name, interface_name_ := interface_name, value_ptr_ := Ptr.dangling,
    int_value_ptr_ := Ptr.indeterminate, uint32_value_ptr_ := Ptr.indeterminate,
    str_value_ptr_ := Ptr.indeterminate, array_value_ptr_ := value_ptr }

/-- `explicit ReadOnlyHandle(const std::string & interface_name)`: `name_` is
default-constructed (empty), `value_ptr_` is `nullptr`. -/
def ctor_interface_name (interface_name : String) : ReadOnlyHandle :=
  { name_ := "", interface_name_ := interface_name, value_ptr_ := Ptr.null,
    int_value_ptr_ := Ptr.indeterminate, uint32_value_ptr_ := Ptr.indeterminate,
    str_value_ptr_ := Ptr.indeterminate, array_value_ptr_ := Ptr.indeterminate }

/-- `explicit ReadOnlyHandle(const char * interface_name)`. -/
def ctor_c_str (interface_name : String) : ReadOnlyHandle :=
  { name_ := "", interface_name_ := interface_name, value_ptr_ := Ptr.null,
    int_value_ptr_ := Ptr.indeterminate, uint32_value_ptr_ := Ptr.indeterminate,
    str_value_ptr_ := Ptr.indeterminate, array_value_ptr_ := Ptr.indeterminate }

/-- `ReadOnlyHandle(const ReadOnlyHandle & other) = default`: memberwise copy.  A
member that was never initialised stays so in the copy. -/
def copy (other : ReadOnlyHandle) : ReadOnlyHandle :=
  { name_ := other.name_, interface_name_ := other.interface_name_,
    value_ptr_ := other.value_ptr_, int_value_ptr_ := other.int_value_ptr_,
    uint32_value_ptr_ := other.uint32_value_ptr_, str_value_ptr_ := other.str_value_ptr_,
    array_value_ptr_ := other.array_value_ptr_ }

/-- `operator bool() const { return value_ptr_ != nullptr; }` -/
def operator_bool (h : ReadOnlyHandle) : Except Fault Bool :=
  h.value_ptr_.ne_nullptr

/-- `get_name()` -/
def get_name (h : ReadOnlyHandle) : String := h.name_

/-- `get_interface_name()` -/
def get_interface_name (h : ReadOnlyHandle) : String := h.interface_name_

/-- `get_full_name() const { return name_ + "/" + interface_name_; }` -/
def get_full_name (h : ReadOnlyHandle) : String := h.name_ ++ "/" ++ h.interface_name_

/-- `double get_value() const` -/
def get_value (h : ReadOnlyHandle) (s : Storage) : Except Fault Float := do
  THROW_ON_NULLPTR h.value_ptr_
  h.value_ptr_.deref s.doubles

/-- `int get_int_value() const` -/
def get_int_value (h : ReadOnlyHandle) (s : Storage) : Except Fault Int := do
  THROW_ON_NULLPTR h.int_value_ptr_
  h.int_value_ptr_.deref s.ints

/-- `uint32_t get_uint32_value() const` -/
def get_uint32_value (h : ReadOnlyHandle) (s : Storage) : Except Fault Nat := do
  THROW_ON_NULLPTR h.uint32_value_ptr_
  h.uint32_value_ptr_.deref s.uint32s

/-- `std::vector<unsigned char> get_str_value() const` -/
def get_str_value (h : ReadOnlyHandle) (s : Storage) : Except Fault (List Nat) := do
  THROW_ON_NULLPTR h.str_value_ptr_
  h.str_value_ptr_.deref s.strs

/-- `std::vector<double> get_array_value() const` -/
def get_array_value (h : ReadOnlyHandle) (s : Storage) : Except Fault (List Float) := do
  THROW_ON_NULLPTR h.array_value_ptr_
  h.array_value_ptr_.deref s.arrays

end ReadOnlyHandle

/-- `class ReadWriteHandle : public ReadOnlyHandle` -/
structure ReadWriteHandle extends ReadOnlyHandle
  deriving DecidableEq, Repr

namespace ReadWriteHandle

/-- `ReadWriteHandle(name, interface_name, double * value_ptr = nullptr)` -/
def ctor_double (name interface_name : String) (value_ptr : Ptr) : ReadWriteHandle :=
  { toReadOnlyHandle := ReadOnlyHandle.ctor_double name interface_name value_ptr }

/-- `explicit ReadWriteHandle(const std::string & interface_name)` -/
def ctor_interface_name (interface_name : String) : ReadWriteHandle :=
  { toReadOnlyHandle := ReadOnlyHandle.ctor_interface_name interface_name }

/-- `explicit ReadWriteHandle(const char * interface_name)` -/
def ctor_c_str (interface_name : String) : ReadWriteHandle :=
  { toReadOnlyHandle := ReadOnlyHandle.ctor_c_str interface_name }

/-- The assignment `*p = value` to a `double`: defined only for the address of a live
object. -/
def assign_double (p : Ptr) (value : Float) (s : Storage) : Except Fault Storage :=
  match p with
  | Ptr.addr a => Except.ok (s.write_double a value)
  | _ => Except.error Fault.undefined_behavior

/-- The assignment `*p = value` to a `std::vector<double>`. -/
def assign_array (p : Ptr) (value : List Float) (s : Storage) : Except Fault Storage :=
  match p with
  | Ptr.addr a => Except.ok (s.write_array a value)
  | _ => Except.error Fault.undefined_behavior

/-- `void set_value(double value)`: returns the handle and the storage after the call. -/
def set_value (h : ReadWriteHandle) (value : Float) (s : Storage) :
    Except Fault (ReadWriteHandle × Storage) := do
  THROW_ON_NULLPTR h.value_ptr_
  let s' ← assign_double h.value_ptr_ value s
  pure (h, s')

/-- `void set_value(std::vector<double> value)`: returns the handle and the storage
after the call. -/
def set_value_array (h : ReadWriteHandle) (value : List Float) (s : Storage) :
    Except Fault (ReadWriteHandle × Storage) := do
  THROW_ON_NULLPTR h.array_value_ptr_
  let s' ← assign_array h.array_value_ptr_ value s
  pure (h, s')

end ReadWriteHandle

/-- `class StateInterface : public ReadOnlyHandle`, with the inherited constructors. -/
structure StateInterface extends ReadOnlyHandle
  deriving DecidableEq, Repr

namespace StateInterface

/-- `StateInterface(const StateInterface & other) = default` -/
def copy (other : StateInterface) : StateInterface :=
  { toReadOnlyHandle := ReadOnlyHandle.copy other.toReadOnlyHandle }

end StateInterface

/-- `class CommandInterface : public ReadWriteHandle`, with the inherited constructors. -/
structure CommandInterface extends ReadWriteHandle
  deriving DecidableEq, Repr

/-- A storage whose objects all hold zero / the empty sequence. -/
def Storage.zero : Storage :=
  { doubles := fun _ => 0.0, ints := fun _ => 0, uint32s := fun _ => 0,
    strs := fun _ => [], arrays := fun _ => [] }

/-- The five value-reference members of a handle, in declaration order. -/
def ReadOnlyHandle.value_references (h : ReadOnlyHandle) : List Ptr :=
  [h.value_ptr_, h.int_value_ptr_, h.uint32_value_ptr_, h.str_value_ptr_, h.array_value_ptr_]

/-! ## Move and copy of read-write handles -/

/-- `ReadOnlyHandle(ReadOnlyHandle && other) = default`: memberwise move.  The result is
the new handle and `other` as the call leaves it.  A moved-from `std::string` is in a
valid but unspecified state, here `left_name` and `left_interface_name`; moving a raw
pointer copies it and leaves the source member as it was. -/
def ReadOnlyHandle.move (other : ReadOnlyHandle) (left_name left_interface_name : String) :
    ReadOnlyHandle × ReadOnlyHandle :=
  ({ name_ := other.name_, interface_name_ := other.interface_name_,
     value_ptr_ := other.value_ptr_, int_value_ptr_ := other.int_value_ptr_,
     uint32_value_ptr_ := other.uint32_value_ptr_, str_value_ptr_ := other.str_value_ptr_,
     array_value_ptr_ := other.array_value_ptr_ },
   { name_ := left_name, interface_name_ := left_interface_name,
     value_ptr_ := other.value_ptr_, int_value_ptr_ := other.int_value_ptr_,
     uint32_value_ptr_ := other.uint32_value_ptr_, str_value_ptr_ := other.str_value_ptr_,
     array_value_ptr_ := other.array_value_ptr_ })

/-- `ReadWriteHandle(const ReadWriteHandle & other) = default` -/
def ReadWriteHandle.copy (other : ReadWriteHandle) : ReadWriteHandle :=
  { toReadOnlyHandle := ReadOnlyHandle.copy other.toReadOnlyHandle }

/-- `ReadWriteHandle(ReadWriteHandle && other) = default` -/
def ReadWriteHandle.move (other : ReadWriteHandle) (left_name left_interface_name : String) :
    ReadWriteHandle × ReadWriteHandle :=
  ({ toReadOnlyHandle :=
       (ReadOnlyHandle.move other.toReadOnlyHandle left_name left_interface_name).1 },
   { toReadOnlyHandle :=
       (ReadOnlyHandle.move other.toReadOnlyHandle left_name left_interface_name).2 })

/-- The inherited constructor `StateInterface(name, interface_name, double * value_ptr = nullptr)`. -/
def StateInterface.ctor_double (name interface_name : String) (value_ptr : Ptr) :
    StateInterface :=
  { toReadOnlyHandle := ReadOnlyHandle.ctor_double name interface_name value_ptr }

/-- The inherited constructor `StateInterface(name, interface_name, int * value_ptr)`. -/
def StateInterface.ctor_int (name interface_name : String) (value_ptr : Ptr) :
    StateInterface :=
  { toReadOnlyHandle := ReadOnlyHandle.ctor_int name interface_name value_ptr }

/-- The inherited constructor
`CommandInterface(name, interface_name, double * value_ptr = nullptr)`. -/
def CommandInterface.ctor_double (name interface_name : String) (value_ptr : Ptr) :
    CommandInterface :=
  { toReadWriteHandle := ReadWriteHandle.ctor_double name interface_name value_ptr }

/-- `CommandInterface(CommandInterface && other) = default`.  The copy constructor
`CommandInterface(const CommandInterface & other)` is deleted: `CommandInterface` has no
`copy`. -/
def CommandInterface.move (other : CommandInterface) (left_name left_interface_name : String) :
    CommandInterface × CommandInterface :=
  ({ toReadWriteHandle :=
       (ReadWriteHandle.move other.toReadWriteHandle left_name left_interface_name).1 },
   { toReadWriteHandle :=
       (ReadWriteHandle.move other.toReadWriteHandle left_name left_interface_name).2 })

/-- The `double` objects that the live read-write instances `live` are bound to, one
entry per bound instance. -/
def bound_references (live : List ReadWriteHandle) : List Nat :=
  live.filterMap fun h =>
    match h.value_ptr_ with
    | Ptr.addr a => some a
    | _ => none

/-! ## The test actuator -/

/-- Modelled from the spec: `enum class return_type` of the hardware_interface return
values header, which is not among the sources: "a two-valued outcome: success or
failure (no payload)". -/
inductive return_type where
  | OK
  | ERROR
  deriving DecidableEq, Repr

/-- Modelled from the spec: `enum class status` of the hardware_interface status header,
which is not among the sources: the lifecycle states
"UNCONFIGURED, CONFIGURED, STOPPED, STARTED". -/
inductive status where
  | UNCONFIGURED
  | CONFIGURED
  | STARTED
  | STOPPED
  deriving DecidableEq, Repr

/-- Modelled from the spec: an entry of an interface list of `hardware_info.hpp`, which
is not among the sources; the code reads its `name`. -/
structure InterfaceInfo where
  name : String
  deriving DecidableEq, Repr

/-- Modelled from the spec: `ComponentInfo` of `hardware_info.hpp`: "a name and two
ordered lists of interface names (state, command)". -/
structure ComponentInfo where
  name : String
  state_interfaces : List InterfaceInfo
  command_interfaces : List InterfaceInfo
  deriving DecidableEq, Repr

/-- Modelled from the spec: `HardwareInfo` of `hardware_info.hpp`: the "ordered
sequence of joint/component descriptors"; the code reads `joints`. -/
structure HardwareInfo where
  joints : List ComponentInfo
  deriving DecidableEq, Repr

/-- `std::vector::operator[]`: undefined when the index is not below the size. -/
def vector_index {α : Type} (v : List α) (i : Nat) : Except Fault α :=
  match v[i]? with
  | some x => Except.ok x
  | none => Except.error Fault.undefined_behavior

/-- The members of `class TestActuator : public BaseInterface<ActuatorInterface>` that
are not `double`s: `info_` and `status_`, declared by `BaseInterface`.  The three
`double` members live in the `Storage`, at `position_state_`, `velocity_state_` and
`velocity_command_`. -/
structure TestActuator where
  info_ : HardwareInfo
  status_ : status
  deriving DecidableEq, Repr

namespace TestActuator

/-- The object number of the member `double position_state_ = 0.0`. -/
def position_state_ : Nat := 0

/-- The object number of the member `double velocity_state_ = 0.0`. -/
def velocity_state_ : Nat := 1

/-- The object number of the member `double velocity_command_ = 0.0`. -/
def velocity_command_ : Nat := 2

/-- Modelled from the spec: the validation inside `BaseInterface::configure_default`
(`base_interface.hpp`, not among the sources).  The spec has `configure` validate that
the description "is structurally acceptable for this component (e.g., correct
joint/interface counts)"; the counts of this component are the ones its `configure`
names: one joint, with one command interface and two state interfaces. -/
def structurally_acceptable (info : HardwareInfo) : Bool :=
  match info.joints with
  | [j] => decide (j.command_interfaces.length = 1) && decide (j.state_interfaces.length = 2)
  | _ => false

/-- Modelled from the spec: `BaseInterface::configure_default` of `base_interface.hpp`,
which is not among the sources.  In the spec's words it "validates the hardware
description is structurally acceptable for this component", "stores the parsed
description" and "returns success/error", the component being CONFIGURED after a
success; on error the component is left as it was. -/
def configure_default (info : HardwareInfo) (self : TestActuator) :
    return_type × TestActuator :=
  if structurally_acceptable info then
    (return_type.OK, { info_ := info, status_ := status.CONFIGURED })
  else
    (return_type.ERROR, self)

/-- `return_type configure(const HardwareInfo & info)`, over the behaviour `base` of the
inherited `configure_default`.  Between the test of its result and `return OK` the
source has only a comment. -/
def configure (base : HardwareInfo → TestActuator → return_type × TestActuator)
    (info : HardwareInfo) (self : TestActuator) : return_type × TestActuator :=
  if (base info self).1 ≠ return_type.OK then
    (return_type.ERROR, (base info self).2)
  else
    (return_type.OK, (base info self).2)

/-- `std::vector<StateInterface> export_state_interfaces()`.  Each `emplace_back` moves
a temporary into the vector; the element has the members the constructor gave the
temporary. -/
def export_state_interfaces (self : TestActuator) : Except Fault (List StateInterface) := do
  let state_interfaces : List StateInterface := []
  let j ← vector_index self.info_.joints 0
  let i ← vector_index j.state_interfaces 0
  let state_interfaces := state_interfaces ++
    [StateInterface.ctor_double j.name i.name (Ptr.addr position_state_)]
  let j ← vector_index self.info_.joints 0
  let i ← vector_index j.state_interfaces 1
  let state_interfaces := state_interfaces ++
    [StateInterface.ctor_double j.name i.name (Ptr.addr velocity_state_)]
  let j ← vector_index self.info_.joints 0
  let state_interfaces := state_interfaces ++
    [StateInterface.ctor_double j.name "some_unlisted_interface" Ptr.null]
  pure state_interfaces

/-- `std::vector<CommandInterface> export_command_interfaces()` -/
def export_command_interfaces (self : TestActuator) :
    Except Fault (List CommandInterface) := do
  let command_interfaces : List CommandInterface := []
  let j ← vector_index self.info_.joints 0
  let i ← vector_index j.command_interfaces 0
  let command_interfaces := command_interfaces ++
    [CommandInterface.ctor_double j.name i.name (Ptr.addr velocity_command_)]
  pure command_interfaces

/-- `return_type start()`: the result, the component and the storage after the call. -/
def start (self : TestActuator) (s : Storage) : return_type × TestActuator × Storage :=
  (return_type.OK, { self with status_ := status.STARTED }, s)

/-- `return_type stop()` -/
def stop (self : TestActuator) (s : Storage) : return_type × TestActuator × Storage :=
  (return_type.OK, { self with status_ := status.STOPPED }, s)

/-- `return_type read() override { return return_type::OK; }` -/
def read (self : TestActuator) (s : Storage) : return_type × TestActuator × Storage :=
  (return_type.OK, self, s)

/-- `return_type write() override { return return_type::OK; }` -/
def write (self : TestActuator) (s : Storage) : return_type × TestActuator × Storage :=
  (return_type.OK, self, s)

end TestActuator

/-- The description of the end-to-end scenario: one joint `joint1` declaring the state
interfaces `position`, `velocity` and the command interface `velocity`. -/
def joint1_info : HardwareInfo :=
  { joints := [{ name := "joint1",
                 state_interfaces := [{ name := "position" }, { name := "velocity" }],
                 command_interfaces := [{ name := "velocity" }] }] }

/-- What the claim on description validation asks of a description: a first joint with
at least two state interfaces and at least one command interface, so that the indices
`joints[0]`, `state_interfaces[0]`, `state_interfaces[1]`, `command_interfaces[0]` are
in bounds. -/
def indices_in_bounds (info : HardwareInfo) : Bool :=
  match info.joints[0]? with
  | some j => decide (2 ≤ j.state_interfaces.length) && decide (1 ≤ j.command_interfaces.length)
  | none => false

/-! ## Full names -/

/-- C2: on a read-write handle whose `value_ptr_` is the address of a live `double`,
`set_value v` succeeds and the `get_value` that follows it returns `v`. -/
theorem set_value_get_value_round_trip (h : ReadWriteHandle) (a : Nat) (v : Float)
    (s : Storage) (hb : h.value_ptr_ = Ptr.addr a) :
    (h.set_value v s >>= fun r => r.1.toReadOnlyHandle.get_value r.2) = Except.ok v := by
  simp [ReadWriteHandle.set_value, ReadOnlyHandle.get_value, THROW_ON_NULLPTR,
    ReadWriteHandle.assign_double, Ptr.deref, Storage.write_double, hb, bind, Except.bind,
    pure, Except.pure]

/-- Witness of C2: a command handle on `joint1/velocity` bound to `double` number 0. -/
theorem set_value_get_value_round_trip_witness :
    (ReadWriteHandle.ctor_double "joint1" "velocity" (Ptr.addr 0)).value_ptr_ = Ptr.addr 0 ∧
    ((ReadWriteHandle.ctor_double "joint1" "velocity" (Ptr.addr 0)).set_value 5.0 Storage.zero
      >>= fun r => r.1.toReadOnlyHandle.get_value r.2) = Except.ok 5.0 :=
  ⟨rfl, set_value_get_value_round_trip
    (ReadWriteHandle.ctor_double "joint1" "velocity" (Ptr.addr 0)) 0 5.0 Storage.zero rfl⟩

/-- C3 (evaluation of the code): none of the three constructors of `ReadWriteHandle`
takes a `std::vector<double> *`, each leaves `array_value_ptr_` without a value, and
`set_value(std::vector<double>)` on the handle they build never stores anything: the
call is undefined. -/
theorem set_value_array_of_ctor (name interface_name : String) (p : Ptr) (v : List Float)
    (s : Storage) :
    ((ReadWriteHandle.ctor_double name interface_name p).array_value_ptr_ = Ptr.indeterminate ∧
      (ReadWriteHandle.ctor_double name interface_name p).set_value_array v s
        = Except.error Fault.undefined_behavior) ∧
    ((ReadWriteHandle.ctor_interface_name interface_name).array_value_ptr_ = Ptr.indeterminate ∧
      (ReadWriteHandle.ctor_interface_name interface_name).set_value_array v s
        = Except.error Fault.undefined_behavior) ∧
    ((ReadWriteHandle.ctor_c_str interface_name).array_value_ptr_ = Ptr.indeterminate ∧
      (ReadWriteHandle.ctor_c_str interface_name).set_value_array v s
        = Except.error Fault.undefined_behavior) :=
  ⟨⟨rfl, rfl⟩, ⟨rfl, rfl⟩, ⟨rfl, rfl⟩⟩

/-! ## Unbound handles -/

/-- C4: a handle built by an interface-name-only constructor, or by the
name + interface name constructor with the null default, read-only or read-write,
converts to `false` and its `get_value` throws. -/
theorem unbound_handle_rejects (name interface_name : String) :
    ∀ h ∈ [ReadOnlyHandle.ctor_interface_name interface_name,
           ReadOnlyHandle.ctor_c_str interface_name,
           ReadOnlyHandle.ctor_double name interface_name Ptr.null,
           (ReadWriteHandle.ctor_interface_name interface_name).toReadOnlyHandle,
           (ReadWriteHandle.ctor_c_str interface_name).toReadOnlyHandle,
           (ReadWriteHandle.ctor_double name interface_name Ptr.null).toReadOnlyHandle],
      h.operator_bool = Except.ok false ∧
      ∀ s, h.get_value s = Except.error Fault.nullptr_exception := by
  intro h hh
  simp only [List.mem_cons, List.mem_singleton, List.not_mem_nil, or_false] at hh
  rcases hh with rfl | rfl | rfl | rfl | rfl | rfl <;> exact ⟨rfl, fun _ => rfl⟩

/-- Witness of C4 at `StateInterface(joint1, some_unlisted_interface)`. -/
theorem unbound_handle_rejects_witness :
    (ReadOnlyHandle.ctor_double "joint1" "some_unlisted_interface" Ptr.null).operator_bool
      = Except.ok false ∧
    ∀ s, (ReadOnlyHandle.ctor_double "joint1" "some_unlisted_interface" Ptr.null).get_value s
      = Except.error Fault.nullptr_exception :=
  unbound_handle_rejects "joint1" "some_unlisted_interface"
    (ReadOnlyHandle.ctor_double "joint1" "some_unlisted_interface" Ptr.null) (by simp)

/-- C5 (evaluation of the code): a typed accessor of a kind the handle was not built
with does not throw.  `get_value` on a handle built from an `int *` goes through the
dead local; `get_int_value` on a handle built from a `double *`, and `get_array_value`
on a handle built from an interface name alone, test a pointer that was never
initialised. -/
theorem typed_accessor_of_other_kind (s : Storage) :
    (ReadOnlyHandle.ctor_int "joint1" "position" (Ptr.addr 0)).get_value s
      = Except.error Fault.undefined_behavior ∧
    (ReadOnlyHandle.ctor_double "joint1" "position" (Ptr.addr 0)).get_int_value s
      = Except.error Fault.undefined_behavior ∧
    (ReadOnlyHandle.ctor_interface_name "position").get_array_value s
      = Except.error Fault.undefined_behavior :=
  ⟨rfl, rfl, rfl⟩

/-- C6 (evaluation of the code): a handle built from a null `int *`, `uint32_t *`,
byte-sequence or float64-sequence pointer converts to `true`. -/
theorem operator_bool_of_null_reference :
    (ReadOnlyHandle.ctor_int "joint1" "position" Ptr.null).operator_bool = Except.ok true ∧
    (ReadOnlyHandle.ctor_uint32 "joint1" "position" Ptr.null).operator_bool = Except.ok true ∧
    (ReadOnlyHandle.ctor_str "joint1" "position" Ptr.null).operator_bool = Except.ok true ∧
    (ReadOnlyHandle.ctor_array "joint1" "position" Ptr.null).operator_bool = Except.ok true :=
  ⟨rfl, rfl, rfl, rfl⟩

/-- C7 (evaluation of the code): after `ReadOnlyHandle(joint1, position, &i)` with a live
`int i`, both `value_ptr_` and `int_value_ptr_` are non-null, the three other pointers
are uninitialised rather than null, and no member at all is null. -/
theorem value_references_of_ctor_int :
    (ReadOnlyHandle.ctor_int "joint1" "position" (Ptr.addr 0)).value_references
      = [Ptr.dangling, Ptr.addr 0, Ptr.indeterminate, Ptr.indeterminate, Ptr.indeterminate] ∧
    ((ReadOnlyHandle.ctor_int "joint1" "position" (Ptr.addr 0)).value_references.filter
      (fun p => decide (p ≠ Ptr.null))).length = 5 :=
  ⟨rfl, by decide⟩

/-! ## Writing through a handle -/

/-- The scalar half of C8: `set_value(double)` on a read-write handle whose
`value_ptr_` is null throws, and no storage results from the call. -/
theorem set_value_of_null (h : ReadWriteHandle) (v : Float) (s : Storage)
    (hn : h.value_ptr_ = Ptr.null) :
    h.set_value v s = Except.error Fault.nullptr_exception := by
  simp [ReadWriteHandle.set_value, THROW_ON_NULLPTR, hn, bind, Except.bind]

/-- C8 (evaluation of the code): `set_value(std::vector<double>)` on a read-write handle
with no float64-sequence reference, built from an interface name alone or from a bound
`double *`, does not throw: it tests a pointer that was never initialised. -/
theorem set_value_array_of_unbound (v : List Float) (s : Storage) :
    (ReadWriteHandle.ctor_interface_name "velocity").set_value_array v s
      = Except.error Fault.undefined_behavior ∧
    (ReadWriteHandle.ctor_double "joint1" "velocity" (Ptr.addr 0)).set_value_array v s
      = Except.error Fault.undefined_behavior ∧
    (ReadWriteHandle.ctor_double "joint1" "velocity" (Ptr.addr 0)).set_value_array v s
      ≠ Except.error Fault.nullptr_exception :=
  ⟨rfl, rfl, by simp [ReadWriteHandle.set_value_array, ReadWriteHandle.ctor_double,
    ReadOnlyHandle.ctor_double, THROW_ON_NULLPTR, bind, Except.bind]⟩

/-- C9: on a read-write handle whose `value_ptr_` is the address of `double` number `a`,
`set_value v` succeeds, the storage after the call holds `v` in that object, every other
`double` and every object of the other kinds is as before, and the handle is as before. -/
theorem set_value_frame (h : ReadWriteHandle) (a : Nat) (v : Float) (s : Storage)
    (hb : h.value_ptr_ = Ptr.addr a) :
    ∃ h1 s1, h.set_value v s = Except.ok (h1, s1) ∧
      s1.doubles a = v ∧ (∀ b, b ≠ a → s1.doubles b = s.doubles b) ∧
      s1.ints = s.ints ∧ s1.uint32s = s.uint32s ∧ s1.strs = s.strs ∧ s1.arrays = s.arrays ∧
      h1 = h := by
  refine ⟨h, s.write_double a v, ?_, ?_, ?_, rfl, rfl, rfl, rfl, rfl⟩
  · simp [ReadWriteHandle.set_value, THROW_ON_NULLPTR, ReadWriteHandle.assign_double, hb,
      bind, Except.bind, pure, Except.pure]
  · simp [Storage.write_double]
  · intro b hne
    simp [Storage.write_double, hne]

/-- Witness of C9: the command handle `joint1/velocity` bound to `double` number 2. -/
theorem set_value_frame_witness :
    (ReadWriteHandle.ctor_double "joint1" "velocity" (Ptr.addr 2)).value_ptr_ = Ptr.addr 2 ∧
    ∃ h1 s1, (ReadWriteHandle.ctor_double "joint1" "velocity" (Ptr.addr 2)).set_value 5.0
        Storage.zero = Except.ok (h1, s1) ∧
      s1.doubles 2 = 5.0 ∧ (∀ b, b ≠ 2 → s1.doubles b = Storage.zero.doubles b) ∧
      s1.ints = Storage.zero.ints ∧ s1.uint32s = Storage.zero.uint32s ∧
      s1.strs = Storage.zero.strs ∧ s1.arrays = Storage.zero.arrays ∧
      h1 = ReadWriteHandle.ctor_double "joint1" "velocity" (Ptr.addr 2) :=
  ⟨rfl, set_value_frame (ReadWriteHandle.ctor_double "joint1" "velocity" (Ptr.addr 2)) 2 5.0
    Storage.zero rfl⟩

/-! ## Copies of a state interface -/

/-- C10 (counterexample): the state interface built by the inherited `int *`
constructor on a live `int` is bound, its boolean conversion is `true`, yet `get_value`
on it and on its copy is not the content of any slot: the call goes through the dead
local of the constructor. -/
theorem copy_of_int_bound_state_interface :
    (StateInterface.ctor_int "joint1" "position" (Ptr.addr 0)).operator_bool = Except.ok true ∧
    (StateInterface.ctor_int "joint1" "position" (Ptr.addr 0)).get_value Storage.zero
      = Except.error Fault.undefined_behavior ∧
    (StateInterface.copy (StateInterface.ctor_int "joint1" "position" (Ptr.addr 0))).get_value
      Storage.zero = Except.error Fault.undefined_behavior ∧
    ¬ ∃ a, (StateInterface.copy
        (StateInterface.ctor_int "joint1" "position" (Ptr.addr 0))).get_value Storage.zero
      = Except.ok (Storage.zero.doubles a) := by
  refine ⟨rfl, rfl, rfl, ?_⟩
  rintro ⟨a, ha⟩
  have hu : (StateInterface.copy
      (StateInterface.ctor_int "joint1" "position" (Ptr.addr 0))).get_value Storage.zero
      = Except.error Fault.undefined_behavior := rfl
  rw [hu] at ha
  cases ha

/-- C10 (amended): a copy of a state interface, whatever constructor built it, has
exactly the members of the original: the same name, interface name, full name and the
same five value references.  When the reference of a kind is the address of a live
object, the accessor of that kind returns, on the copy and on the original and in every
storage, what the object holds then; for the float64 scalar kind both return `v` once
the owner has stored `v` there. -/
theorem copy_observes_same_value (h : StateInterface) :
    StateInterface.copy h = h ∧
    (StateInterface.copy h).get_name = h.get_name ∧
    (StateInterface.copy h).get_interface_name = h.get_interface_name ∧
    (StateInterface.copy h).get_full_name = h.get_full_name ∧
    (StateInterface.copy h).value_references = h.value_references ∧
    (∀ a, h.value_ptr_ = Ptr.addr a → ∀ s : Storage,
      (StateInterface.copy h).get_value s = Except.ok (s.doubles a) ∧
      h.get_value s = Except.ok (s.doubles a) ∧
      ∀ v : Float, (StateInterface.copy h).get_value (s.write_double a v) = Except.ok v ∧
        h.get_value (s.write_double a v) = Except.ok v) ∧
    (∀ a, h.int_value_ptr_ = Ptr.addr a → ∀ s : Storage,
      (StateInterface.copy h).get_int_value s = Except.ok (s.ints a) ∧
      h.get_int_value s = Except.ok (s.ints a)) ∧
    (∀ a, h.uint32_value_ptr_ = Ptr.addr a → ∀ s : Storage,
      (StateInterface.copy h).get_uint32_value s = Except.ok (s.uint32s a) ∧
      h.get_uint32_value s = Except.ok (s.uint32s a)) ∧
    (∀ a, h.str_value_ptr_ = Ptr.addr a → ∀ s : Storage,
      (StateInterface.copy h).get_str_value s = Except.ok (s.strs a) ∧
      h.get_str_value s = Except.ok (s.strs a)) ∧
    (∀ a, h.array_value_ptr_ = Ptr.addr a → ∀ s : Storage,
      (StateInterface.copy h).get_array_value s = Except.ok (s.arrays a) ∧
      h.get_array_value s = Except.ok (s.arrays a)) := by
  have hc : StateInterface.copy h = h := rfl
  rw [hc]
  refine ⟨rfl, rfl, rfl, rfl, rfl, ?_, ?_, ?_, ?_, ?_⟩
  · intro a hb s
    have hg : ∀ t : Storage, h.get_value t = Except.ok (t.doubles a) := by
      intro t
      simp [ReadOnlyHandle.get_value, THROW_ON_NULLPTR, Ptr.deref, hb, bind, Except.bind]
    have hw : ∀ v : Float, (s.write_double a v).doubles a = v := by
      intro v
      simp [Storage.write_double]
    refine ⟨hg s, hg s, fun v => ?_⟩
    rw [hg, hw]
    exact ⟨rfl, rfl⟩
  · intro a hb s
    simp [ReadOnlyHandle.get_int_value, THROW_ON_NULLPTR, Ptr.deref, hb, bind, Except.bind]
  · intro a hb s
    simp [ReadOnlyHandle.get_uint32_value, THROW_ON_NULLPTR, Ptr.deref, hb, bind, Except.bind]
  · intro a hb s
    simp [ReadOnlyHandle.get_str_value, THROW_ON_NULLPTR, Ptr.deref, hb, bind, Except.bind]
  · intro a hb s
    simp [ReadOnlyHandle.get_array_value, THROW_ON_NULLPTR, Ptr.deref, hb, bind, Except.bind]

/-- Witness of C10 (amended): the state interface `joint1/position` bound to `double`
number 0, and its copy, read `v` once the owner has stored `v` in that object. -/
theorem copy_observes_same_value_witness :
    (StateInterface.ctor_double "joint1" "position" (Ptr.addr 0)).value_ptr_ = Ptr.addr 0 ∧
    ∀ s : Storage,
      (StateInterface.copy (StateInterface.ctor_double "joint1" "position" (Ptr.addr 0))).get_value s
        = Except.ok (s.doubles 0) ∧
      (StateInterface.ctor_double "joint1" "position" (Ptr.addr 0)).get_value s
        = Except.ok (s.doubles 0) ∧
      ∀ v : Float,
        (StateInterface.copy
          (StateInterface.ctor_double "joint1" "position" (Ptr.addr 0))).get_value
            (s.write_double 0 v) = Except.ok v ∧
        (StateInterface.ctor_double "joint1" "position" (Ptr.addr 0)).get_value
            (s.write_double 0 v) = Except.ok v :=
  ⟨rfl, (copy_observes_same_value
    (StateInterface.ctor_double "joint1" "position" (Ptr.addr 0))).2.2.2.2.2.1 0 rfl⟩

/-! ## Ownership of command interfaces -/

/-- C11 (counterexample): after `CommandInterface b(std::move(a))` with `a` bound to the
`double` number 2, the moved-from `a` and `b` are two live read-write instances bound to
that same object; so are `a` and a `ReadWriteHandle` copy-constructed from it. -/
theorem command_interface_binding_not_exclusive :
    ¬ (bound_references
        [((CommandInterface.ctor_double "joint1" "velocity" (Ptr.addr 2)).move "" "").2.toReadWriteHandle,
         ((CommandInterface.ctor_double "joint1" "velocity" (Ptr.addr 2)).move "" "").1.toReadWriteHandle]).Nodup ∧
    ¬ (bound_references
        [(CommandInterface.ctor_double "joint1" "velocity" (Ptr.addr 2)).toReadWriteHandle,
         ReadWriteHandle.copy
           (CommandInterface.ctor_double "joint1" "velocity" (Ptr.addr 2)).toReadWriteHandle]).Nodup := by
  constructor <;> decide

/-- C11 (amended): move construction of a command interface gives the new instance
exactly the members of the source, and leaves every value reference of the source in
place; the defaulted copy constructor of `ReadWriteHandle`, applied to the base of a
command interface, gives a read-write handle with the same members. -/
theorem command_interface_move (c : CommandInterface) (left_name left_interface_name : String) :
    (c.move left_name left_interface_name).1 = c ∧
    (c.move left_name left_interface_name).2.value_references = c.value_references ∧
    ReadWriteHandle.copy c.toReadWriteHandle = c.toReadWriteHandle :=
  ⟨rfl, rfl, rfl⟩

/-! ## Exported interfaces of the test actuator -/

/-- C12 (counterexample): on the component that stores the description `joint1` with
state interfaces `position`, `velocity` and command interface `velocity`,
`export_state_interfaces` returns three state handles, not two. -/
theorem export_state_interfaces_joint1_length :
    ∃ l, TestActuator.export_state_interfaces
        { info_ := joint1_info, status_ := status.CONFIGURED } = Except.ok l ∧
      l.length = 3 ∧ l.length ≠ 2 :=
  ⟨_, rfl, rfl, by decide⟩

/-- C12 (amended): when the first joint of the stored description declares at least two
state interfaces and at least one command interface, `export_state_interfaces` returns
exactly three state handles and `export_command_interfaces` exactly one command handle. -/
theorem export_lengths (self : TestActuator) (J : ComponentInfo) (rest : List ComponentInfo)
    (s0 s1 c0 : InterfaceInfo) (srest crest : List InterfaceInfo)
    (hj : self.info_.joints = J :: rest) (hs : J.state_interfaces = s0 :: s1 :: srest)
    (hc : J.command_interfaces = c0 :: crest) :
    ∃ l c, self.export_state_interfaces = Except.ok l ∧ l.length = 3 ∧
      self.export_command_interfaces = Except.ok c ∧ c.length = 1 := by
  refine ⟨[StateInterface.ctor_double J.name s0.name (Ptr.addr TestActuator.position_state_),
      StateInterface.ctor_double J.name s1.name (Ptr.addr TestActuator.velocity_state_),
      StateInterface.ctor_double J.name "some_unlisted_interface" Ptr.null],
    [CommandInterface.ctor_double J.name c0.name (Ptr.addr TestActuator.velocity_command_)],
    ?_, rfl, ?_, rfl⟩
  · simp [TestActuator.export_state_interfaces, vector_index, hj, hs, bind, Except.bind,
      pure, Except.pure]
  · simp [TestActuator.export_command_interfaces, vector_index, hj, hc, bind, Except.bind,
      pure, Except.pure]

/-- Witness of C12 (amended) on the `joint1` description. -/
theorem export_lengths_witness :
    ∃ l c, TestActuator.export_state_interfaces
        { info_ := joint1_info, status_ := status.CONFIGURED } = Except.ok l ∧ l.length = 3 ∧
      TestActuator.export_command_interfaces
        { info_ := joint1_info, status_ := status.CONFIGURED } = Except.ok c ∧ c.length = 1 :=
  export_lengths { info_ := joint1_info, status_ := status.CONFIGURED }
    { name := "joint1", state_interfaces := [{ name := "position" }, { name := "velocity" }],
      command_interfaces := [{ name := "velocity" }] } []
    { name := "position" } { name := "velocity" } { name := "velocity" } [] [] rfl rfl rfl

/-- C13: when the first joint `J` of the stored description declares state interfaces
`s0`, `s1`, ... and command interfaces `c0`, ..., the exported state handles are three:
the first two are bound, to `position_state_` and `velocity_state_`, with full names
`J.name/s0` and `J.name/s1`; the third has full name `J.name/some_unlisted_interface`
and converts to `false`; the one command handle is bound to `velocity_command_` with
full name `J.name/c0`. -/
theorem exported_handles_named (self : TestActuator) (J : ComponentInfo)
    (rest : List ComponentInfo) (s0 s1 c0 : InterfaceInfo) (srest crest : List InterfaceInfo)
    (hj : self.info_.joints = J :: rest) (hs : J.state_interfaces = s0 :: s1 :: srest)
    (hc : J.command_interfaces = c0 :: crest) :
    ∃ h0 h1 h2 c, self.export_state_interfaces = Except.ok [h0, h1, h2] ∧
      self.export_command_interfaces = Except.ok [c] ∧
      h0.operator_bool = Except.ok true ∧ h0.value_ptr_ = Ptr.addr TestActuator.position_state_ ∧
      h0.get_full_name = J.name ++ "/" ++ s0.name ∧
      h1.operator_bool = Except.ok true ∧ h1.value_ptr_ = Ptr.addr TestActuator.velocity_state_ ∧
      h1.get_full_name = J.name ++ "/" ++ s1.name ∧
      h2.operator_bool = Except.ok false ∧
      h2.get_full_name = J.name ++ "/" ++ "some_unlisted_interface" ∧
      c.operator_bool = Except.ok true ∧ c.value_ptr_ = Ptr.addr TestActuator.velocity_command_ ∧
      c.get_full_name = J.name ++ "/" ++ c0.name := by
  refine ⟨StateInterface.ctor_double J.name s0.name (Ptr.addr TestActuator.position_state_),
    StateInterface.ctor_double J.name s1.name (Ptr.addr TestActuator.velocity_state_),
    StateInterface.ctor_double J.name "some_unlisted_interface" Ptr.null,
    CommandInterface.ctor_double J.name c0.name (Ptr.addr TestActuator.velocity_command_),
    ?_, ?_, rfl, rfl, rfl, rfl, rfl, rfl, rfl, rfl, rfl, rfl, rfl⟩
  · simp [TestActuator.export_state_interfaces, vector_index, hj, hs, bind, Except.bind,
      pure, Except.pure]
  · simp [TestActuator.export_command_interfaces, vector_index, hj, hc, bind, Except.bind,
      pure, Except.pure]

/-- Witness of C13 on the `joint1` description: the full names are `joint1/position`,
`joint1/velocity`, `joint1/some_unlisted_interface` and `joint1/velocity`. -/
theorem exported_handles_named_witness :
    ∃ h0 h1 h2 c, TestActuator.export_state_interfaces
        { info_ := joint1_info, status_ := status.CONFIGURED } = Except.ok [h0, h1, h2] ∧
      TestActuator.export_command_interfaces
        { info_ := joint1_info, status_ := status.CONFIGURED } = Except.ok [c] ∧
      h0.operator_bool = Except.ok true ∧ h0.value_ptr_ = Ptr.addr TestActuator.position_state_ ∧
      h0.get_full_name = "joint1" ++ "/" ++ "position" ∧
      h1.operator_bool = Except.ok true ∧ h1.value_ptr_ = Ptr.addr TestActuator.velocity_state_ ∧
      h1.get_full_name = "joint1" ++ "/" ++ "velocity" ∧
      h2.operator_bool = Except.ok false ∧
      h2.get_full_name = "joint1" ++ "/" ++ "some_unlisted_interface" ∧
      c.operator_bool = Except.ok true ∧ c.value_ptr_ = Ptr.addr TestActuator.velocity_command_ ∧
      c.get_full_name = "joint1" ++ "/" ++ "velocity" :=
  exported_handles_named { info_ := joint1_info, status_ := status.CONFIGURED }
    { name := "joint1", state_interfaces := [{ name := "position" }, { name := "velocity" }],
      command_interfaces := [{ name := "velocity" }] } []
    { name := "position" } { name := "velocity" } { name := "velocity" } [] [] rfl rfl rfl

/-! ## Lifecycle of the test actuator -/

/-- The code of `configure` adds nothing to the inherited `configure_default`: whatever
that does, `configure` returns success exactly when it does, failure otherwise, and
leaves the component as it left it. -/
theorem configure_adds_no_check
    (base : HardwareInfo → TestActuator → return_type × TestActuator)
    (info : HardwareInfo) (self : TestActuator) :
    ((TestActuator.configure base info self).1 = return_type.OK ↔
      (base info self).1 = return_type.OK) ∧
    ((TestActuator.configure base info self).1 = return_type.ERROR ↔
      (base info self).1 ≠ return_type.OK) ∧
    (TestActuator.configure base info self).2 = (base info self).2 := by
  refine ⟨?_, ?_, ?_⟩
  · by_cases hb : (base info self).1 = return_type.OK <;> simp [TestActuator.configure, hb]
  · by_cases hb : (base info self).1 = return_type.OK <;> simp [TestActuator.configure, hb]
  · by_cases hb : (base info self).1 = return_type.OK <;> simp [TestActuator.configure, hb]

/-- A description the validation accepts has exactly one joint, with two state
interfaces and one command interface. -/
theorem structurally_acceptable_shape (info : HardwareInfo)
    (h : TestActuator.structurally_acceptable info = true) :
    ∃ j s0 s1 c0, info.joints = [j] ∧ j.state_interfaces = [s0, s1] ∧
      j.command_interfaces = [c0] := by
  unfold TestActuator.structurally_acceptable at h
  split at h
  · rename_i j hj
    simp only [Bool.and_eq_true, decide_eq_true_eq] at h
    obtain ⟨hc, hs⟩ := h
    match hcm : j.command_interfaces, hsm : j.state_interfaces with
    | [c0], [s0, s1] => exact ⟨j, s0, s1, c0, hj, hsm, hcm⟩
    | [], _ => simp [hcm] at hc
    | _ :: _ :: _, _ => simp [hcm] at hc
    | [_], [] => simp [hsm] at hs
    | [_], [_] => simp [hsm] at hs
    | [_], _ :: _ :: _ :: _ => simp [hsm] at hs
  · exact absurd h (by simp)

/-- C14: over the validating `configure_default` of the spec, every description on which
`configure` returns success has a first joint with at least two state interfaces and at
least one command interface; the configured component stores that description, and
`export_state_interfaces` and `export_command_interfaces` on it index in bounds: both
return their handles. -/
theorem configure_ok_in_bounds (info : HardwareInfo) (self : TestActuator)
    (hok : (TestActuator.configure TestActuator.configure_default info self).1
      = return_type.OK) :
    indices_in_bounds info = true ∧
    (∃ j, info.joints[0]? = some j ∧ 2 ≤ j.state_interfaces.length ∧
      1 ≤ j.command_interfaces.length) ∧
    (TestActuator.configure TestActuator.configure_default info self).2.info_ = info ∧
    (∃ l c,
      (TestActuator.configure TestActuator.configure_default info self).2.export_state_interfaces
        = Except.ok l ∧
      (TestActuator.configure TestActuator.configure_default info self).2.export_command_interfaces
        = Except.ok c) := by
  have hacc : TestActuator.structurally_acceptable info = true := by
    by_cases hb : TestActuator.structurally_acceptable info = true
    · exact hb
    · simp [TestActuator.configure, TestActuator.configure_default, hb] at hok
  obtain ⟨j, s0, s1, c0, hj, hs, hc⟩ := structurally_acceptable_shape info hacc
  have hst : (TestActuator.configure TestActuator.configure_default info self).2
      = { info_ := info, status_ := status.CONFIGURED } := by
    simp [TestActuator.configure, TestActuator.configure_default, hacc]
  refine ⟨?_, ⟨j, ?_, ?_, ?_⟩, ?_, ?_⟩
  · simp [indices_in_bounds, hj, hs, hc]
  · simp [hj]
  · simp [hs]
  · simp [hc]
  · rw [hst]
  · rw [hst]
    refine ⟨[StateInterface.ctor_double j.name s0.name (Ptr.addr TestActuator.position_state_),
        StateInterface.ctor_double j.name s1.name (Ptr.addr TestActuator.velocity_state_),
        StateInterface.ctor_double j.name "some_unlisted_interface" Ptr.null],
      [CommandInterface.ctor_double j.name c0.name (Ptr.addr TestActuator.velocity_command_)],
      ?_, ?_⟩
    · simp [TestActuator.export_state_interfaces, vector_index, hj, hs, bind, Except.bind,
        pure, Except.pure]
    · simp [TestActuator.export_command_interfaces, vector_index, hj, hc, bind, Except.bind,
        pure, Except.pure]

/-- Witness of C14: `configure` succeeds on the `joint1` description. -/
theorem configure_ok_in_bounds_witness :
    (TestActuator.configure TestActuator.configure_default joint1_info
      { info_ := { joints := [] }, status_ := status.UNCONFIGURED }).1 = return_type.OK ∧
    indices_in_bounds joint1_info = true ∧
    (TestActuator.configure TestActuator.configure_default joint1_info
      { info_ := { joints := [] }, status_ := status.UNCONFIGURED }).2.info_ = joint1_info :=
  ⟨rfl, (configure_ok_in_bounds joint1_info
      { info_ := { joints := [] }, status_ := status.UNCONFIGURED } rfl).1,
    (configure_ok_in_bounds joint1_info
      { info_ := { joints := [] }, status_ := status.UNCONFIGURED } rfl).2.2.1⟩

/-- C15 (counterexample): `start` on a component that was never configured, and on one
whose `configure` has just returned failure, returns success and leaves the component
STARTED. -/
theorem start_without_configure :
    ((TestActuator.start { info_ := { joints := [] }, status_ := status.UNCONFIGURED }
        Storage.zero).1 = return_type.OK ∧
      (TestActuator.start { info_ := { joints := [] }, status_ := status.UNCONFIGURED }
        Storage.zero).2.1.status_ = status.STARTED) ∧
    ((TestActuator.configure (fun _ self => (return_type.ERROR, self)) joint1_info
        { info_ := { joints := [] }, status_ := status.UNCONFIGURED }).1 = return_type.ERROR ∧
      (TestActuator.start
        (TestActuator.configure (fun _ self => (return_type.ERROR, self)) joint1_info
          { info_ := { joints := [] }, status_ := status.UNCONFIGURED }).2
        Storage.zero).1 = return_type.OK ∧
      (TestActuator.start
        (TestActuator.configure (fun _ self => (return_type.ERROR, self)) joint1_info
          { info_ := { joints := [] }, status_ := status.UNCONFIGURED }).2
        Storage.zero).2.1.status_ = status.STARTED) :=
  ⟨⟨rfl, rfl⟩, rfl, rfl, rfl⟩

/-- C15 (amended): `start` has no precondition: from every component state, and from
the state any `configure` call leaves, whatever that call returned, `start` returns
success and the component is STARTED. -/
theorem start_always_succeeds (self : TestActuator) (s : Storage)
    (base : HardwareInfo → TestActuator → return_type × TestActuator) (info : HardwareInfo) :
    (self.start s).1 = return_type.OK ∧ (self.start s).2.1.status_ = status.STARTED ∧
    ((TestActuator.configure base info self).2.start s).1 = return_type.OK ∧
    ((TestActuator.configure base info self).2.start s).2.1.status_ = status.STARTED :=
  ⟨rfl, rfl, rfl, rfl⟩

/-- C16: with the handles the test actuator exports, for every storage `s` and value `v`:
`set_value v` on the command interface succeeds, the `write()` and `read()` that follow
return success and leave component and storage as they are, after which the command
interface reads `v` and each bound state interface reads what it read before, the
content of its own slot; the three slots are pairwise distinct.  From the storage of a
fresh component the state interfaces read `0.0`. -/
theorem command_write_read (self : TestActuator) (J : ComponentInfo)
    (rest : List ComponentInfo) (s0 s1 c0 : InterfaceInfo) (srest crest : List InterfaceInfo)
    (hj : self.info_.joints = J :: rest) (hs : J.state_interfaces = s0 :: s1 :: srest)
    (hc : J.command_interfaces = c0 :: crest) :
    ∃ h0 h1 h2 c, self.export_state_interfaces = Except.ok [h0, h1, h2] ∧
      self.export_command_interfaces = Except.ok [c] ∧
      (TestActuator.position_state_ ≠ TestActuator.velocity_state_ ∧
        TestActuator.position_state_ ≠ TestActuator.velocity_command_ ∧
        TestActuator.velocity_state_ ≠ TestActuator.velocity_command_) ∧
      (∀ (s : Storage) (v : Float), ∃ s1,
        c.set_value v s = Except.ok (c.toReadWriteHandle, s1) ∧
        self.write s1 = (return_type.OK, self, s1) ∧
        self.read (self.write s1).2.2 = (return_type.OK, self, s1) ∧
        c.get_value s1 = Except.ok v ∧
        h0.get_value s1 = h0.get_value s ∧
        h0.get_value s = Except.ok (s.doubles TestActuator.position_state_) ∧
        h1.get_value s1 = h1.get_value s ∧
        h1.get_value s = Except.ok (s.doubles TestActuator.velocity_state_)) ∧
      (∀ v : Float, ∃ s1,
        c.set_value v Storage.zero = Except.ok (c.toReadWriteHandle, s1) ∧
        h0.get_value s1 = Except.ok 0.0 ∧ h1.get_value s1 = Except.ok 0.0) := by
  have hmain : ∀ (s : Storage) (v : Float),
      (CommandInterface.ctor_double J.name c0.name
          (Ptr.addr TestActuator.velocity_command_)).set_value v s
        = Except.ok ((CommandInterface.ctor_double J.name c0.name
            (Ptr.addr TestActuator.velocity_command_)).toReadWriteHandle,
          s.write_double TestActuator.velocity_command_ v) := fun _ _ => rfl
  refine ⟨StateInterface.ctor_double J.name s0.name (Ptr.addr TestActuator.position_state_),
    StateInterface.ctor_double J.name s1.name (Ptr.addr TestActuator.velocity_state_),
    StateInterface.ctor_double J.name "some_unlisted_interface" Ptr.null,
    CommandInterface.ctor_double J.name c0.name (Ptr.addr TestActuator.velocity_command_),
    ?_, ?_, by decide, ?_, ?_⟩
  · simp [TestActuator.export_state_interfaces, vector_index, hj, hs, bind, Except.bind,
      pure, Except.pure]
  · simp [TestActuator.export_command_interfaces, vector_index, hj, hc, bind, Except.bind,
      pure, Except.pure]
  · intro s v
    refine ⟨s.write_double TestActuator.velocity_command_ v, hmain s v, rfl, rfl,
      ?_, rfl, rfl, rfl, rfl⟩
    simp [ReadOnlyHandle.get_value, CommandInterface.ctor_double, ReadWriteHandle.ctor_double,
      ReadOnlyHandle.ctor_double, THROW_ON_NULLPTR, Ptr.deref, Storage.write_double, bind,
      Except.bind]
  · intro v
    exact ⟨Storage.zero.write_double TestActuator.velocity_command_ v, hmain _ v, rfl, rfl⟩

/-- Witness of C16 on the `joint1` description. -/
theorem command_write_read_witness :
    ∃ h0 h1 h2 c, TestActuator.export_state_interfaces
        { info_ := joint1_info, status_ := status.CONFIGURED } = Except.ok [h0, h1, h2] ∧
      TestActuator.export_command_interfaces
        { info_ := joint1_info, status_ := status.CONFIGURED } = Except.ok [c] ∧
      (∀ v : Float, ∃ s1,
        c.set_value v Storage.zero = Except.ok (c.toReadWriteHandle, s1) ∧
        h0.get_value s1 = Except.ok 0.0 ∧ h1.get_value s1 = Except.ok 0.0) := by
  obtain ⟨h0, h1, h2, c, e1, e2, _, _, e3⟩ :=
    command_write_read { info_ := joint1_info, status_ := status.CONFIGURED }
      { name := "joint1", state_interfaces := [{ name := "position" }, { name := "velocity" }],
        command_interfaces := [{ name := "velocity" }] } []
      { name := "position" } { name := "velocity" } { name := "velocity" } [] [] rfl rfl rfl
  exact ⟨h0, h1, h2, c, e1, e2, e3⟩

/-- C17: in every state `start` returns success and sets the status to STARTED, `stop`
returns success and sets it to STOPPED; both leave the stored description and the
storage, so the three slots, unchanged.  Hence `stop` after `start` ends STOPPED and
`start` after `stop` ends STARTED, and a second `start` (a second `stop`) gives the same
result, component and storage as the first. -/
theorem start_stop (self : TestActuator) (s : Storage) :
    ((self.start s).1 = return_type.OK ∧ (self.start s).2.1.status_ = status.STARTED ∧
      (self.start s).2.1.info_ = self.info_ ∧ (self.start s).2.2 = s) ∧
    ((self.stop s).1 = return_type.OK ∧ (self.stop s).2.1.status_ = status.STOPPED ∧
      (self.stop s).2.1.info_ = self.info_ ∧ (self.stop s).2.2 = s) ∧
    ((self.start s).2.1.stop (self.start s).2.2).2.1.status_ = status.STOPPED ∧
    ((self.stop s).2.1.start (self.stop s).2.2).2.1.status_ = status.STARTED ∧
    (self.start s).2.1.start (self.start s).2.2 = self.start s ∧
    (self.stop s).2.1.stop (self.stop s).2.2 = self.stop s :=
  ⟨⟨rfl, rfl, rfl, rfl⟩, ⟨rfl, rfl, rfl, rfl⟩, rfl, rfl, rfl, rfl⟩

/-! ## The full name as a lookup key -/

/-- Two lists that agree after a separator `c` was put between their halves have equal
halves, when `c` occurs in neither first half. -/
theorem append_separator_inj {α : Type} (c : α) :
    ∀ (a b x y : List α), c ∉ a → c ∉ x → a ++ c :: b = x ++ c :: y → a = x ∧ b = y := by
  intro a
  induction a with
  | nil =>
    intro b x y _ hx h
    cases x with
    | nil => exact ⟨rfl, by simpa using h⟩
    | cons d x =>
      simp only [List.nil_append, List.cons_append, List.cons.injEq] at h
      exact absurd (h.1 ▸ List.mem_cons_self _ _) hx
  | cons e a ih =>
    intro b x y ha hx h
    cases x with
    | nil =>
      simp only [List.nil_append, List.cons_append, List.cons.injEq] at h
      exact absurd (h.1 ▸ List.mem_cons_self _ _) ha
    | cons d x =>
      simp only [List.cons_append, List.cons.injEq] at h
      have hr := ih b x y (fun hm => ha (List.mem_cons_of_mem _ hm))
        (fun hm => hx (List.mem_cons_of_mem _ hm)) h.2
      exact ⟨by rw [h.1, hr.1], hr.2⟩

/-- C18: two handles whose names contain no `/` and whose full names are equal have
equal names and equal interface names. -/
theorem get_full_name_inj (h1 h2 : ReadOnlyHandle)
    (n1 : '/' ∉ h1.get_name.toList) (n2 : '/' ∉ h2.get_name.toList)
    (he : h1.get_full_name = h2.get_full_name) :
    h1.get_name = h2.get_name ∧ h1.get_interface_name = h2.get_interface_name := by
  have hd := congrArg String.toList he
  simp only [ReadOnlyHandle.get_full_name, String.toList, String.data_append] at hd
  simp only [List.append_assoc, List.singleton_append] at hd
  have hr := append_separator_inj '/' _ _ _ _ n1 n2 hd
  exact ⟨String.ext hr.1, String.ext hr.2⟩

/-- Witness of C18: two handles on `joint1/position` built by different constructors. -/
theorem get_full_name_inj_witness :
    (ReadOnlyHandle.ctor_double "joint1" "position" (Ptr.addr 0)).get_name
      = (ReadOnlyHandle.ctor_int "joint1" "position" Ptr.null).get_name ∧
    (ReadOnlyHandle.ctor_double "joint1" "position" (Ptr.addr 0)).get_interface_name
      = (ReadOnlyHandle.ctor_int "joint1" "position" Ptr.null).get_interface_name :=
  get_full_name_inj (ReadOnlyHandle.ctor_double "joint1" "position" (Ptr.addr 0))
    (ReadOnlyHandle.ctor_int "joint1" "position" Ptr.null) (by decide) (by decide) rfl

/-- With a `/` in a name the full name is ambiguous: `a/b` with interface `c` and `a`
with interface `b/c` have the same full name. -/
theorem get_full_name_collision :
    (ReadOnlyHandle.ctor_double "a/b" "c" Ptr.null).get_full_name
      = (ReadOnlyHandle.ctor_double "a" "b/c" Ptr.null).get_full_name ∧
    (ReadOnlyHandle.ctor_double "a/b" "c" Ptr.null).get_name
      ≠ (ReadOnlyHandle.ctor_double "a" "b/c" Ptr.null).get_name := by
  constructor <;> decide

end hardware_interface
